import Mathlib

/-!
Shallow embedding of `src/main.c` of the videoplayer repository (a V4L2
webcam viewer with SDL3 display and audio passthrough), together with
theorems settling the specification claims about it.

Conventions of the embedding:
* machine integers are modelled as `Nat` / `Int` (the C values involved
  never overflow 32-bit `int` for the ranges considered);
* the C arithmetic right shift `>> 8` on a (possibly negative) `int` is
  floor division by 256, as gcc implements it;
* byte stores into a buffer are modelled explicitly as a list of
  `(index, value)` writes, so that "every byte is written exactly once"
  is a statement about that list;
* external effects (ioctl outcomes, SDL call outcomes) are supplied by
  oracle values, and the embedded control flow is translated branch by
  branch from the C source.
-/

namespace Videoplayer

/-! ### FrameConverter: `clamp_u8` and `yuyv_to_rgb24` (src/main.c:68-106) -/

/-- `clamp_u8` from src/main.c:68-74: clamp an `int` to a byte. -/
def clamp_u8 (x : Int) : Nat :=
  if x < 0 then 0
  else if x > 255 then 255
  else x.toNat

/-- The C expression `e >> 8` on a signed `int`: arithmetic shift right,
i.e. floor division by 256. -/
def asr8 (x : Int) : Int := Int.fdiv x 256

/-- The six `(index, value)` byte stores performed by one iteration of the
loop body of `yuyv_to_rgb24` (src/main.c:79-105), at pixel index `i`
(the C loop keeps `j = 2*i`).  `yuyv` maps a byte offset of the source
frame to the byte stored there. -/
def macropixelWrites (yuyv : Nat → Nat) (i : Nat) : List (Nat × Nat) :=
  let j := 2 * i
  let y0 : Int := yuyv j
  let u : Int := (yuyv (j + 1) : Int) - 128
  let y1 : Int := yuyv (j + 2)
  let v : Int := (yuyv (j + 3) : Int) - 128
  let c0 : Int := y0 - 16
  let c1 : Int := y1 - 16
  let r0 := asr8 (298 * c0 + 409 * v + 128)
  let g0 := asr8 (298 * c0 - 100 * u - 208 * v + 128)
  let b0 := asr8 (298 * c0 + 516 * u + 128)
  let r1 := asr8 (298 * c1 + 409 * v + 128)
  let g1 := asr8 (298 * c1 - 100 * u - 208 * v + 128)
  let b1 := asr8 (298 * c1 + 516 * u + 128)
  [(i * 3, clamp_u8 r0), (i * 3 + 1, clamp_u8 g0), (i * 3 + 2, clamp_u8 b0),
   ((i + 1) * 3, clamp_u8 r1), ((i + 1) * 3 + 1, clamp_u8 g1),
   ((i + 1) * 3 + 2, clamp_u8 b1)]

/-- The pixel indices visited by the loop `for (i = 0; i < npix; i += 2)`:
`0, 2, 4, ...`, one per iteration; there are `⌈npix/2⌉` iterations. -/
def loopPixelIndices (npix : Nat) : List Nat :=
  (List.range ((npix + 1) / 2)).map (fun k => 2 * k)

/-- All byte stores of one call `yuyv_to_rgb24(yuyv, rgb, w, h)`
(src/main.c:77-106), in program order. -/
def yuyv_to_rgb24_writes (yuyv : Nat → Nat) (w h : Nat) : List (Nat × Nat) :=
  (loopPixelIndices (w * h)).flatMap (macropixelWrites yuyv)

/-- Replay a list of byte stores on a store (`none` = byte never written). -/
def applyWrites (ws : List (Nat × Nat)) (st : Nat → Option Nat) :
    Nat → Option Nat :=
  ws.foldl (fun st p => fun k => if k = p.1 then some p.2 else st k) st

/-- The contents of the `rgb` output buffer after one call of
`yuyv_to_rgb24`, as a partial map from byte index to stored byte. -/
def yuyv_to_rgb24 (yuyv : Nat → Nat) (w h : Nat) : Nat → Option Nat :=
  applyWrites (yuyv_to_rgb24_writes yuyv w h) (fun _ => none)

/-- The per-pixel transform stated by the specification: subtract 16 from
the luma sample and 128 from each chroma component, apply the fixed-point
BT.601 coefficients with `+128` rounding and shift by 8, clamp to a byte.
Returns `(R, G, B)`. -/
def specPixelRGB (y u v : Nat) : Nat × Nat × Nat :=
  let yy : Int := (y : Int) - 16
  let uu : Int := (u : Int) - 128
  let vv : Int := (v : Int) - 128
  (clamp_u8 (asr8 (298 * yy + 409 * vv + 128)),
   clamp_u8 (asr8 (298 * yy - 100 * uu - 208 * vv + 128)),
   clamp_u8 (asr8 (298 * yy + 516 * uu + 128)))

/-- The six byte indices written by the iteration handling macropixel `k`
(pixels `2k` and `2k+1`). -/
def sixIdx (k : Nat) : List Nat :=
  [6 * k, 6 * k + 1, 6 * k + 2, 6 * k + 3, 6 * k + 4, 6 * k + 5]

/-- `macropixelWrites` at pixel `2k` spelled out: the six stores target
byte indices `6k..6k+5` and carry exactly the specification's per-pixel
values for the two pixels of macropixel `k`. -/
theorem macropixelWrites_eq (yuyv : Nat → Nat) (k : Nat) :
    macropixelWrites yuyv (2 * k) =
      [(6 * k, (specPixelRGB (yuyv (4 * k)) (yuyv (4 * k + 1))
          (yuyv (4 * k + 3))).1),
       (6 * k + 1, (specPixelRGB (yuyv (4 * k)) (yuyv (4 * k + 1))
          (yuyv (4 * k + 3))).2.1),
       (6 * k + 2, (specPixelRGB (yuyv (4 * k)) (yuyv (4 * k + 1))
          (yuyv (4 * k + 3))).2.2),
       (6 * k + 3, (specPixelRGB (yuyv (4 * k + 2)) (yuyv (4 * k + 1))
          (yuyv (4 * k + 3))).1),
       (6 * k + 4, (specPixelRGB (yuyv (4 * k + 2)) (yuyv (4 * k + 1))
          (yuyv (4 * k + 3))).2.1),
       (6 * k + 5, (specPixelRGB (yuyv (4 * k + 2)) (yuyv (4 * k + 1))
          (yuyv (4 * k + 3))).2.2)] := by
  have h1 : 2 * (2 * k) = 4 * k := by ring
  have h5 : 2 * k * 3 = 6 * k := by ring
  have h8 : (2 * k + 1) * 3 = 6 * k + 3 := by ring
  simp only [macropixelWrites, specPixelRGB]
  rw [h1, h5, h8]

theorem macropixelWrites_fst (yuyv : Nat → Nat) (k : Nat) :
    (macropixelWrites yuyv (2 * k)).map Prod.fst = sixIdx k := by
  rw [macropixelWrites_eq]
  rfl

theorem writes_fst (yuyv : Nat → Nat) (w h : Nat) :
    (yuyv_to_rgb24_writes yuyv w h).map Prod.fst
      = (List.range ((w * h + 1) / 2)).flatMap sixIdx := by
  simp only [yuyv_to_rgb24_writes, loopPixelIndices, List.map_flatMap, List.flatMap_map]
  exact List.flatMap_congr (fun k _ => macropixelWrites_fst yuyv k)

theorem count_bind_sixIdx (M idx : Nat) :
    ((List.range M).flatMap sixIdx).count idx = if idx < 6 * M then 1 else 0 := by
  induction M with
  | zero => simp
  | succ M ih =>
    rw [List.range_succ, List.flatMap_append, List.count_append, ih]
    have htail : ([M] : List Nat).flatMap sixIdx = sixIdx M := by
      simp
    rw [htail]
    simp only [sixIdx, List.count_cons, List.count_nil, beq_iff_eq]
    split_ifs <;> omega

/-- Index count of the write list of one conversion call: each byte index
below `6⌈w·h/2⌉` is written exactly once, and no other index is written. -/
theorem count_writes (yuyv : Nat → Nat) (w h idx : Nat) :
    ((yuyv_to_rgb24_writes yuyv w h).map Prod.fst).count idx
      = if idx < 6 * ((w * h + 1) / 2) then 1 else 0 := by
  rw [writes_fst, count_bind_sixIdx]

theorem applyWrites_not_mem (ws : List (Nat × Nat)) (st : Nat → Option Nat)
    (idx : Nat) (h : idx ∉ ws.map Prod.fst) :
    applyWrites ws st idx = st idx := by
  induction ws generalizing st with
  | nil => rfl
  | cons p ws ih =>
    simp only [List.map_cons, List.mem_cons] at h
    push_neg at h
    simp only [applyWrites, List.foldl_cons]
    rw [show (List.foldl (fun st p => fun k =>
        if k = p.1 then some p.2 else st k) _ ws)
        = applyWrites ws (fun k => if k = p.1 then some p.2 else st k) from rfl]
    rw [ih _ h.2]
    simp [h.1]

theorem applyWrites_unique (ws : List (Nat × Nat)) (st : Nat → Option Nat)
    (idx v : Nat) (hmem : (idx, v) ∈ ws)
    (hcount : (ws.map Prod.fst).count idx = 1) :
    applyWrites ws st idx = some v := by
  induction ws generalizing st with
  | nil => cases hmem
  | cons p ws ih =>
    simp only [applyWrites, List.foldl_cons]
    rw [show (List.foldl (fun st p => fun k =>
        if k = p.1 then some p.2 else st k) _ ws)
        = applyWrites ws (fun k => if k = p.1 then some p.2 else st k) from rfl]
    rw [List.map_cons, List.count_cons] at hcount
    simp only [beq_iff_eq] at hcount
    by_cases hp : idx = p.1
    · have hzero : (ws.map Prod.fst).count idx = 0 := by
        split_ifs at hcount <;> omega
      have hnot : idx ∉ ws.map Prod.fst := List.count_eq_zero.mp hzero
      have hv : v = p.2 := by
        rcases List.mem_cons.mp hmem with h | h
        · rw [← h]
        · exact absurd (List.mem_map.mpr ⟨(idx, v), h, rfl⟩) hnot
      rw [applyWrites_not_mem ws _ idx hnot]
      simp [hp, hv]
    · have hcount' : (ws.map Prod.fst).count idx = 1 := by
        split_ifs at hcount <;> omega
      have hmem' : (idx, v) ∈ ws := by
        rcases List.mem_cons.mp hmem with h | h
        · exact absurd (congrArg Prod.fst h) hp
        · exact h
      exact ih _ hmem' hcount'

theorem applyWrites_const (ws : List (Nat × Nat)) (st : Nat → Option Nat)
    (idx v : Nat) (hval : ∀ p ∈ ws, p.2 = v)
    (hmem : idx ∈ ws.map Prod.fst) :
    applyWrites ws st idx = some v := by
  induction ws generalizing st with
  | nil => cases hmem
  | cons p ws ih =>
    simp only [applyWrites, List.foldl_cons]
    rw [show (List.foldl (fun st p => fun k =>
        if k = p.1 then some p.2 else st k) _ ws)
        = applyWrites ws (fun k => if k = p.1 then some p.2 else st k) from rfl]
    rw [List.map_cons] at hmem
    by_cases hmem' : idx ∈ ws.map Prod.fst
    · exact ih _ (fun q hq => hval q (List.mem_cons_of_mem p hq)) hmem'
    · rw [applyWrites_not_mem ws _ idx hmem']
      have hp : idx = p.1 := by
        rcases List.mem_cons.mp hmem with h | h
        · exact h
        · exact absurd h hmem'
      simp [hp, hval p (List.mem_cons_self p ws)]

theorem mem_writes (yuyv : Nat → Nat) (w h k : Nat) (hk : 2 * k < w * h) :
    macropixelWrites yuyv (2 * k) ⊆ yuyv_to_rgb24_writes yuyv w h := by
  intro p hp
  simp only [yuyv_to_rgb24_writes, loopPixelIndices, List.mem_flatMap, List.mem_map, List.mem_range]
  exact ⟨2 * k, ⟨k, by omega, rfl⟩, hp⟩

/-- A write whose target index lies in the written range determines the
final buffer content at that index (no later write shadows it). -/
theorem yuyv_output_eq (yuyv : Nat → Nat) (w h idx v : Nat)
    (hmem : (idx, v) ∈ yuyv_to_rgb24_writes yuyv w h)
    (hidx : idx < 6 * ((w * h + 1) / 2)) :
    yuyv_to_rgb24 yuyv w h idx = some v := by
  refine applyWrites_unique _ _ _ _ hmem ?_
  rw [count_writes]
  simp [hidx]

/-- The output of the conversion at the six byte positions of macropixel
`k` equals the specification's per-pixel transform of the four source
bytes `Y0 = yuyv[4k]`, `U = yuyv[4k+1]`, `Y1 = yuyv[4k+2]`,
`V = yuyv[4k+3]`. -/
theorem output_macropixel (yuyv : Nat → Nat) (w h k : Nat)
    (hk : 2 * k < w * h) :
    yuyv_to_rgb24 yuyv w h (6 * k)
        = some (specPixelRGB (yuyv (4 * k)) (yuyv (4 * k + 1))
            (yuyv (4 * k + 3))).1
    ∧ yuyv_to_rgb24 yuyv w h (6 * k + 1)
        = some (specPixelRGB (yuyv (4 * k)) (yuyv (4 * k + 1))
            (yuyv (4 * k + 3))).2.1
    ∧ yuyv_to_rgb24 yuyv w h (6 * k + 2)
        = some (specPixelRGB (yuyv (4 * k)) (yuyv (4 * k + 1))
            (yuyv (4 * k + 3))).2.2
    ∧ yuyv_to_rgb24 yuyv w h (6 * k + 3)
        = some (specPixelRGB (yuyv (4 * k + 2)) (yuyv (4 * k + 1))
            (yuyv (4 * k + 3))).1
    ∧ yuyv_to_rgb24 yuyv w h (6 * k + 4)
        = some (specPixelRGB (yuyv (4 * k + 2)) (yuyv (4 * k + 1))
            (yuyv (4 * k + 3))).2.1
    ∧ yuyv_to_rgb24 yuyv w h (6 * k + 5)
        = some (specPixelRGB (yuyv (4 * k + 2)) (yuyv (4 * k + 1))
            (yuyv (4 * k + 3))).2.2 := by
  have hsub := mem_writes yuyv w h k hk
  have hbound : ∀ t, t < 6 → 6 * k + t < 6 * ((w * h + 1) / 2) := by
    intro t ht
    have : k < (w * h + 1) / 2 := by omega
    omega
  have hmem : ∀ p ∈ macropixelWrites yuyv (2 * k),
      p ∈ yuyv_to_rgb24_writes yuyv w h := fun p hp => hsub hp
  rw [macropixelWrites_eq] at hmem
  refine ⟨?_, ?_, ?_, ?_, ?_, ?_⟩
  · refine yuyv_output_eq yuyv w h _ _ (hmem _ ?_) (by simpa using hbound 0 (by omega))
    simp
  · exact yuyv_output_eq yuyv w h _ _ (hmem _ (by simp)) (hbound 1 (by omega))
  · exact yuyv_output_eq yuyv w h _ _ (hmem _ (by simp)) (hbound 2 (by omega))
  · exact yuyv_output_eq yuyv w h _ _ (hmem _ (by simp)) (hbound 3 (by omega))
  · exact yuyv_output_eq yuyv w h _ _ (hmem _ (by simp)) (hbound 4 (by omega))
  · exact yuyv_output_eq yuyv w h _ _ (hmem _ (by simp)) (hbound 5 (by omega))

/-- `rgb_size` as computed in `proc_video` (src/main.c:380-381):
`width * height * 3`. -/
def rgb_size (w h : Nat) : Nat := w * h * 3

/-- C3: for every input frame, every width `w` and height `h`, and every
4-byte input macropixel (two luma samples `Y0 = yuyv[4k]`,
`Y1 = yuyv[4k+2]` and one shared chroma pair `U = yuyv[4k+1]`,
`V = yuyv[4k+3]`), the conversion computes each output pixel by
subtracting 16 from the luma sample and 128 from each chroma component,
then `R = (298*Y' + 409*V' + 128) >> 8`,
`G = (298*Y' - 100*U' - 208*V' + 128) >> 8`,
`B = (298*Y' + 516*U' + 128) >> 8`, with every channel clamped to
`[0,255]` (the clamping and shift are `clamp_u8`/`asr8` inside
`specPixelRGB`). -/
theorem C3_yuyv_formula (yuyv : Nat → Nat) (w h k : Nat)
    (hk : 2 * k < w * h) :
    yuyv_to_rgb24 yuyv w h (6 * k)
        = some (specPixelRGB (yuyv (4 * k)) (yuyv (4 * k + 1))
            (yuyv (4 * k + 3))).1
    ∧ yuyv_to_rgb24 yuyv w h (6 * k + 1)
        = some (specPixelRGB (yuyv (4 * k)) (yuyv (4 * k + 1))
            (yuyv (4 * k + 3))).2.1
    ∧ yuyv_to_rgb24 yuyv w h (6 * k + 2)
        = some (specPixelRGB (yuyv (4 * k)) (yuyv (4 * k + 1))
            (yuyv (4 * k + 3))).2.2
    ∧ yuyv_to_rgb24 yuyv w h (6 * k + 3)
        = some (specPixelRGB (yuyv (4 * k + 2)) (yuyv (4 * k + 1))
            (yuyv (4 * k + 3))).1
    ∧ yuyv_to_rgb24 yuyv w h (6 * k + 4)
        = some (specPixelRGB (yuyv (4 * k + 2)) (yuyv (4 * k + 1))
            (yuyv (4 * k + 3))).2.1
    ∧ yuyv_to_rgb24 yuyv w h (6 * k + 5)
        = some (specPixelRGB (yuyv (4 * k + 2)) (yuyv (4 * k + 1))
            (yuyv (4 * k + 3))).2.2 :=
  output_macropixel yuyv w h k hk

/-- Witness for `C3_yuyv_formula` at a concrete frame. -/
theorem C3_yuyv_formula_witness :
    yuyv_to_rgb24 (fun _ => 100) 2 1 0
        = some (specPixelRGB 100 100 100).1
    ∧ yuyv_to_rgb24 (fun _ => 100) 2 1 1
        = some (specPixelRGB 100 100 100).2.1
    ∧ yuyv_to_rgb24 (fun _ => 100) 2 1 2
        = some (specPixelRGB 100 100 100).2.2
    ∧ yuyv_to_rgb24 (fun _ => 100) 2 1 3
        = some (specPixelRGB 100 100 100).1
    ∧ yuyv_to_rgb24 (fun _ => 100) 2 1 4
        = some (specPixelRGB 100 100 100).2.1
    ∧ yuyv_to_rgb24 (fun _ => 100) 2 1 5
        = some (specPixelRGB 100 100 100).2.2 :=
  C3_yuyv_formula (fun _ => 100) 2 1 0 (by decide)

/-- C4 as stated is false: a uniform frame with every byte 128 converts to
RGB `(130,130,130)`, and 130 is not within 1 of 128. Concretely at
`w = 2`, `h = 1`, output byte 0. -/
theorem C4_neutral_counterexample :
    yuyv_to_rgb24 (fun _ => 128) 2 1 0 = some 130
    ∧ ¬(127 ≤ 130 ∧ 130 ≤ 129) := by decide

/-- Every store performed when converting the uniform 128 frame carries
the value 130. -/
theorem uniform128_writes_val (w h : Nat) :
    ∀ p ∈ yuyv_to_rgb24_writes (fun _ => 128) w h, p.2 = 130 := by
  intro p hp
  simp only [yuyv_to_rgb24_writes, loopPixelIndices, List.mem_flatMap,
    List.mem_map, List.mem_range] at hp
  obtain ⟨i, ⟨kk, hk, rfl⟩, hpmem⟩ := hp
  rw [macropixelWrites_eq] at hpmem
  have hval : specPixelRGB 128 128 128 = (130, 130, 130) := by decide
  simp only [hval] at hpmem
  simp only [List.mem_cons, List.not_mem_nil, or_false] at hpmem
  rcases hpmem with h | h | h | h | h | h <;> rw [h]

/-- C4 amended: converting a uniform input frame in which every luma
sample equals 128 and every chroma component equals 128 produces an
output frame in which every written byte (in particular every R, G, B
channel inside the buffer) equals 130 — not within 1 of 128. -/
theorem C4_neutral_amended (w h idx : Nat) (hidx : idx < 3 * (w * h)) :
    yuyv_to_rgb24 (fun _ => 128) w h idx = some 130 := by
  refine applyWrites_const _ _ _ _ (uniform128_writes_val w h) ?_
  have hlt : idx < 6 * ((w * h + 1) / 2) := by omega
  have hone :
      ((yuyv_to_rgb24_writes (fun _ => 128) w h).map Prod.fst).count idx
        = 1 := by
    rw [count_writes]
    simp [hlt]
  by_contra hnotmem
  rw [List.count_eq_zero.mpr hnotmem] at hone
  cases hone

/-- Witness for `C4_neutral_amended`. -/
theorem C4_neutral_amended_witness :
    yuyv_to_rgb24 (fun _ => 128) 2 1 4 = some 130 :=
  C4_neutral_amended 2 1 4 (by decide)

/-- C5 as stated is false for frames with an odd pixel count: at
`w = h = 1` the buffer is `1*1*3 = 3` bytes, yet the single loop
iteration also writes byte index 5, outside the buffer. -/
theorem C5_buffer_counterexample :
    rgb_size 1 1 = 3
    ∧ ((yuyv_to_rgb24_writes (fun _ => 0) 1 1).map Prod.fst).count 5 = 1
    ∧ ¬(5 < 3) := by decide

/-- C5 amended: for every negotiated `w`, `h` with an even pixel count
(as YUYV frames have — the format packs two pixels per macropixel), the
`FrameBuffer` size equals `w*h*3` bytes, and one conversion call writes
every byte index below `w*h*3` exactly once and writes no index outside
that range. -/
theorem C5_buffer_amended (yuyv : Nat → Nat) (w h idx : Nat)
    (heven : w * h % 2 = 0) :
    rgb_size w h = w * h * 3
    ∧ ((yuyv_to_rgb24_writes yuyv w h).map Prod.fst).count idx
        = if idx < rgb_size w h then 1 else 0 := by
  refine ⟨rfl, ?_⟩
  rw [count_writes, rgb_size]
  have h6 : 6 * ((w * h + 1) / 2) = w * h * 3 := by omega
  rw [h6]

/-- Witness for `C5_buffer_amended`. -/
theorem C5_buffer_amended_witness :
    rgb_size 2 1 = 2 * 1 * 3
    ∧ ((yuyv_to_rgb24_writes (fun _ => 0) 2 1).map Prod.fst).count 0
        = if 0 < rgb_size 2 1 then 1 else 0 :=
  C5_buffer_amended (fun _ => 0) 2 1 0 (by decide)

/-! ### Presenter: `integer_fit_rect` (src/main.c:183-196) -/

/-- An `SDL_FRect` as filled by `integer_fit_rect`.  The C `float` fields
are modelled as exact rationals: every value the function produces for
window sizes below 2^24 is an integer or an integer plus one half, both
exactly representable in single precision, so the rational model agrees
with the float computation there. -/
structure FRect where
  x : Rat
  y : Rat
  w : Rat
  h : Rat
deriving DecidableEq

/-- `integer_fit_rect` from src/main.c:183-196, translated branch by
branch (`sx`, `sy`, `s` are C `int` divisions and comparisons). -/
def integer_fit_rect (src_w src_h dst_w dst_h : Nat) : FRect :=
  let sx := dst_w / src_w
  let sy := dst_h / src_h
  let s0 := if sx < sy then sx else sy
  let s := if s0 < 1 then 1 else s0
  { x := ((dst_w : Rat) - ((src_w * s : Nat) : Rat)) * (1 / 2)
    y := ((dst_h : Rat) - ((src_h * s : Nat) : Rat)) * (1 / 2)
    w := ((src_w * s : Nat) : Rat)
    h := ((src_h * s : Nat) : Rat) }

theorem scale_eq (sx sy : Nat) :
    (if (if sx < sy then sx else sy) < 1 then 1
      else if sx < sy then sx else sy) = max 1 (min sx sy) := by
  split_ifs <;> omega

theorem floor_min_div (a b c d : Nat) :
    Nat.floor (min ((a : Rat) / b) ((c : Rat) / d)) = min (a / b) (c / d) := by
  have hab : Nat.floor ((a : Rat) / b) = a / b := by
    rw [Nat.floor_div_nat, Nat.floor_natCast]
  have hcd : Nat.floor ((c : Rat) / d) = c / d := by
    rw [Nat.floor_div_nat, Nat.floor_natCast]
  rcases le_total ((a : Rat) / b) ((c : Rat) / d) with h | h
  · rw [min_eq_left h, hab, min_eq_left]
    rw [← hab, ← hcd]
    exact Nat.floor_mono h
  · rw [min_eq_right h, hcd, min_eq_right]
    rw [← hab, ← hcd]
    exact Nat.floor_mono h

/-- C6: for all positive source and destination dimensions, the
fit-rectangle computation uses
`scale = max(1, floor(min(dstW/srcW, dstH/srcH)))` and yields a
`srcW*scale` by `srcH*scale` rectangle centered in the destination
surface; in particular `src=640x480, dst=1280x960` gives scale 2 and rect
`1280x960` at offset `(0,0)`, and `src=640x480, dst=1000x1000` gives
scale 1 and rect `640x480` at offset `(180,260)`. -/
theorem C6_fit_rect (srcW srcH dstW dstH : Nat) (hsw : 0 < srcW)
    (hsh : 0 < srcH) (hdw : 0 < dstW) (hdh : 0 < dstH) :
    (integer_fit_rect srcW srcH dstW dstH).w
        = ((srcW * max 1 (Nat.floor (min ((dstW : Rat) / srcW)
            ((dstH : Rat) / srcH))) : Nat) : Rat)
    ∧ (integer_fit_rect srcW srcH dstW dstH).h
        = ((srcH * max 1 (Nat.floor (min ((dstW : Rat) / srcW)
            ((dstH : Rat) / srcH))) : Nat) : Rat)
    ∧ (integer_fit_rect srcW srcH dstW dstH).x
        = ((dstW : Rat) - (integer_fit_rect srcW srcH dstW dstH).w) / 2
    ∧ (integer_fit_rect srcW srcH dstW dstH).y
        = ((dstH : Rat) - (integer_fit_rect srcW srcH dstW dstH).h) / 2
    ∧ integer_fit_rect 640 480 1280 960 = ⟨0, 0, 1280, 960⟩
    ∧ integer_fit_rect 640 480 1000 1000 = ⟨180, 260, 640, 480⟩ := by
  have hs : (if (if dstW / srcW < dstH / srcH then dstW / srcW
        else dstH / srcH) < 1 then 1
      else if dstW / srcW < dstH / srcH then dstW / srcW else dstH / srcH)
      = max 1 (Nat.floor (min ((dstW : Rat) / srcW) ((dstH : Rat) / srcH))) := by
    rw [floor_min_div, scale_eq]
  refine ⟨?_, ?_, ?_, ?_, ?_, ?_⟩
  · simp only [integer_fit_rect, hs]
  · simp only [integer_fit_rect, hs]
  · simp only [integer_fit_rect]
    rw [mul_one_div]
  · simp only [integer_fit_rect]
    rw [mul_one_div]
  · simp only [integer_fit_rect]
    norm_num [FRect.mk.injEq]
  · simp only [integer_fit_rect]
    norm_num [FRect.mk.injEq]

/-! ### CaptureWorker loop ordering (src/main.c:388-447)

One iteration of the `proc_video` streaming loop is straight-line code:
poll UI events, wait for readiness (`select`), `VIDIOC_DQBUF` a slot,
convert the slot's bytes (`yuyv_to_rgb24`), upload (`SDL_UpdateTexture`),
clear/blit/present, then `VIDIOC_QBUF` the same slot.  We model the loop
as the event trace it emits; iterations in which no buffer is handled
(select timeout or `EINTR`, `DQBUF` returning `EAGAIN`, and the
fatal-break iterations, which stop before any requeue) emit no
dequeue/convert/requeue events and are represented by `noFrame`. -/

/-- Observable events of one `proc_video` loop iteration that touch a
buffer slot or the presentation pipeline. -/
inductive VidEvent where
  | pollEvents
  | waitReady
  | dequeue (s : Nat)
  | convert (s : Nat)
  | upload
  | renderClear
  | renderBlit
  | present
  | requeue (s : Nat)
deriving DecidableEq

/-- Oracle outcome of one loop iteration: either no buffer was handled
this time around, or slot `s` was dequeued and went through the full
convert/upload/draw/present/requeue sequence. -/
inductive VidIter where
  | noFrame
  | frame (s : Nat)
deriving DecidableEq

/-- Trace of a single loop iteration (src/main.c:388-447, in program
order). -/
def iterTrace : VidIter → List VidEvent
  | .noFrame => [.pollEvents, .waitReady]
  | .frame s => [.pollEvents, .waitReady, .dequeue s, .convert s, .upload,
      .renderClear, .renderBlit, .present, .requeue s]

/-- Trace of a run of the streaming loop over a list of iteration
outcomes. -/
def videoTrace (iters : List VidIter) : List VidEvent :=
  iters.flatMap iterTrace

/-- C7: in every run of the capture loop, whenever the trace requeues a
slot `s` (at position `p`), the dequeue of that slot, the conversion of
its contents and the presentation of the converted frame all occur
strictly before the requeue: the slot is never returned to the kernel
while convert or present is still pending. -/
theorem C7_requeue_after_convert_present (iters : List VidIter)
    (p s : Nat) (hreq : (videoTrace iters)[p]? = some (.requeue s)) :
    ∃ d c q, d < c ∧ c < p ∧ q < p ∧
      (videoTrace iters)[d]? = some (.dequeue s) ∧
      (videoTrace iters)[c]? = some (.convert s) ∧
      (videoTrace iters)[q]? = some (.present) := by
  induction iters generalizing p with
  | nil => simp [videoTrace] at hreq
  | cons it rest ih =>
    have hsplit : videoTrace (it :: rest)
        = iterTrace it ++ videoTrace rest := by
      simp [videoTrace]
    rw [hsplit] at hreq ⊢
    by_cases hp : p < (iterTrace it).length
    · rw [List.getElem?_append_left hp] at hreq
      cases it with
      | noFrame =>
        simp only [iterTrace, List.length_cons, List.length_nil] at hp
        interval_cases p <;> simp [iterTrace] at hreq
      | frame s' =>
        simp only [iterTrace, List.length_cons, List.length_nil] at hp
        interval_cases p <;> simp [iterTrace] at hreq
        subst hreq
        refine ⟨2, 3, 7, by omega, by omega, by omega, ?_, ?_, ?_⟩ <;>
          · rw [List.getElem?_append_left (by simp [iterTrace])]
            simp [iterTrace]
    · push_neg at hp
      rw [List.getElem?_append_right hp] at hreq
      obtain ⟨d, c, q, hdc, hcp, hqp, hd, hc, hq⟩ := ih _ hreq
      refine ⟨(iterTrace it).length + d, (iterTrace it).length + c,
        (iterTrace it).length + q, by omega, by omega, by omega, ?_, ?_, ?_⟩ <;>
        · rw [List.getElem?_append_right (by omega)]
          simp only [Nat.add_sub_cancel_left]
          assumption

/-- Witness for `C7_requeue_after_convert_present` on a two-iteration
run. -/
theorem C7_requeue_witness :
    ∃ d c q, d < c ∧ c < 10 ∧ q < 10 ∧
      (videoTrace [.noFrame, .frame 1])[d]? = some (.dequeue 1) ∧
      (videoTrace [.noFrame, .frame 1])[c]? = some (.convert 1) ∧
      (videoTrace [.noFrame, .frame 1])[q]? = some (.present) :=
  C7_requeue_after_convert_present [.noFrame, .frame 1] 10 1 (by decide)

/-! ### LifecycleCoordinator: the shared RunState flag

The source uses two variables for the shared run state: `int running`
(src/main.c:489), shared by pointer with both workers, and the
signal-handler flag `volatile sig_atomic_t g_stop` (src/main.c:53).
Both loops run while `*running && !g_stop`, so the effective RunState is
`running && !gStop`.  The complete set of post-initialization writes to
either variable in the program is enumerated below; `proc_audio`
contains none (see `proc_audio` further down). -/

/-- The two variables making up the shared run state. -/
structure RunFlags where
  running : Bool
  gStop : Bool
deriving DecidableEq

/-- The effective RunState both loops test: `*args->running && !g_stop`
(src/main.c:249, src/main.c:388). -/
def runStateOf (s : RunFlags) : Bool := s.running && !s.gStop

/-- Every write to `running` or `g_stop` in the program after their
initialization (`running = 1`, `g_stop = 0` at startup):
`quitEvent`/`escapeKey` are the UI event path (src/main.c:390-394),
`videoExit` is the store at the end of `proc_video` (src/main.c:450),
`mainAfterJoin` the store in `main` (src/main.c:557) and in the
`pthread_create` failure paths (src/main.c:540,549), and `signalStop`
is `signalHandler` (src/main.c:55-58).  `proc_audio` performs no write
to either variable. -/
inductive FlagWrite where
  | quitEvent
  | escapeKey
  | videoExit
  | mainAfterJoin
  | signalStop
deriving DecidableEq

/-- Effect of each write: the signal handler stores `g_stop = 1`; every
other write stores `running = 0`. -/
def applyFlagWrite : FlagWrite → RunFlags → RunFlags
  | .signalStop, s => { s with gStop := true }
  | .quitEvent, s => { s with running := false }
  | .escapeKey, s => { s with running := false }
  | .videoExit, s => { s with running := false }
  | .mainAfterJoin, s => { s with running := false }

/-- C8: every write to the shared run state by either worker, the UI
event path, `main`, or the signal handler stores "stop": after any
enumerated write, from any prior state, the effective RunState is false.
Hence the flag transitions true→false at most once and no code path ever
sets it back to running. -/
theorem C8_runstate_monotone (w : FlagWrite) (s : RunFlags) :
    runStateOf (applyFlagWrite w s) = false
    ∧ (runStateOf s = false → runStateOf (applyFlagWrite w s) = false) := by
  cases w <;> cases s <;> simp [applyFlagWrite, runStateOf]

/-- Witness for `C8_runstate_monotone` (the second conjunct has a
hypothesis; instantiate at a stopped state). -/
theorem C8_runstate_monotone_witness :
    runStateOf (applyFlagWrite .signalStop ⟨false, true⟩) = false
    ∧ (runStateOf ⟨false, true⟩ = false
        → runStateOf (applyFlagWrite .signalStop ⟨false, true⟩) = false) :=
  C8_runstate_monotone .signalStop ⟨false, true⟩

/-! ### AudioPassthroughWorker: `proc_audio` (src/main.c:198-285)

The startup phase is the sequence of SDL calls
`SDL_OpenAudioDevice` (recording), `SDL_OpenAudioDevice` (playback),
`SDL_CreateAudioStream`+`SDL_BindAudioStream` (recording),
`SDL_CreateAudioStream`+`SDL_BindAudioStream` (playback); any failure
jumps to cleanup with `rc = 1`.  The loop body's outcome each iteration
is supplied by an oracle event.  The crucial source facts recorded by
the embedding: a failed `SDL_GetAudioStreamData`/`SDL_PutAudioStreamData`
executes `break` (src/main.c:260-269), the statement `rc = 0`
(src/main.c:273) runs after the loop however it exited, and no statement
of `proc_audio` assigns to `*args->running` — hence `flagWrites = []` on
every path. -/

/-- Oracle outcomes of the audio startup calls. -/
structure AudioStartOutcome where
  openRecOk : Bool
  openOutOk : Bool
  bindRecOk : Bool
  bindOutOk : Bool
deriving DecidableEq

/-- Oracle outcome of one iteration of the audio loop body:
`noData` = `SDL_GetAudioStreamAvailable` returned ≤ 0 (delay, continue);
`readFail` = `SDL_GetAudioStreamData` returned < 0 (break);
`putFail` = `SDL_PutAudioStreamData` returned false on `got > 0` bytes
(break); `moved n` = `n` bytes moved through successfully (continue);
`externalStop` = the companion thread or a signal cleared the shared
state before this iteration's guard check. -/
inductive AudioIterEvent where
  | noData
  | readFail
  | putFail
  | moved (n : Nat)
  | externalStop
deriving DecidableEq

/-- How the audio loop terminated. -/
inductive AudioExit where
  | guardFalse
  | streamError
  | pending
deriving DecidableEq

/-- Result of `proc_audio`: the returned `rc`, how the loop exited
(`none` if a startup failure meant it never ran), and the list of values
the worker stored into the shared `running` flag (translated from the
source: `proc_audio` contains no assignment to `*args->running`, so this
list is `[]` on every path). -/
structure AudioResult where
  rc : Nat
  loopExit : Option AudioExit
  flagWrites : List Bool
deriving DecidableEq

/-- The `while (*args->running && !g_stop)` loop of `proc_audio`
(src/main.c:249-271) over the oracle's iteration events.  `running` is
the effective shared state the guard reads; the body never assigns it.
`pending` models the oracle trace ending while the loop would continue. -/
def proc_audio_loop (running : Bool) : List AudioIterEvent → AudioExit
  | [] => if running then .pending else .guardFalse
  | ev :: rest =>
    if running then
      match ev with
      | .noData => proc_audio_loop running rest
      | .readFail => .streamError
      | .putFail => .streamError
      | .moved _ => proc_audio_loop running rest
      | .externalStop => proc_audio_loop false rest
    else .guardFalse

/-- `proc_audio` (src/main.c:198-285): startup failures return `rc = 1`
via `goto cleanup`; otherwise the loop runs and `rc = 0` is stored after
it regardless of how it exited. -/
def proc_audio (st : AudioStartOutcome) (running : Bool)
    (events : List AudioIterEvent) : AudioResult :=
  if !st.openRecOk then ⟨1, none, []⟩
  else if !st.openOutOk then ⟨1, none, []⟩
  else if !st.bindRecOk then ⟨1, none, []⟩
  else if !st.bindOutOk then ⟨1, none, []⟩
  else ⟨0, some (proc_audio_loop running events), []⟩

/-- C2 as stated is false: on a stream read failure the audio worker
breaks out of its loop but does not write the shared RunState flag.
Concretely, with a successful startup and a failing first read while the
shared state is still running, the loop exits with a stream error and
the list of values the worker wrote to the flag is empty — in
particular it never wrote `false`. -/
theorem C2_audio_flag_counterexample :
    (proc_audio ⟨true, true, true, true⟩ true [.readFail]).loopExit
        = some .streamError
    ∧ (proc_audio ⟨true, true, true, true⟩ true [.readFail]).flagWrites = []
    ∧ ¬(false ∈ (proc_audio ⟨true, true, true, true⟩ true
        [.readFail]).flagWrites) := by decide

/-- C2 amended: when a stream read or write fails, the audio worker exits
its loop (stream-error exit), but it does not set the shared RunState
flag to false — no exit path of the audio worker writes the flag at all,
so the companion video worker is not notified of an audio failure; a
normal exit (RunState already false) likewise does not write it. -/
theorem C2_audio_flag_amended (st : AudioStartOutcome) (running : Bool)
    (events rest : List AudioIterEvent)
    (hok : st = ⟨true, true, true, true⟩) :
    (proc_audio st true (.readFail :: rest)).loopExit = some .streamError
    ∧ (proc_audio st true (.putFail :: rest)).loopExit = some .streamError
    ∧ (proc_audio st running events).flagWrites = [] := by
  subst hok
  refine ⟨rfl, rfl, ?_⟩
  simp only [proc_audio]
  split_ifs <;> rfl

/-- Witness for `C2_audio_flag_amended`. -/
theorem C2_audio_flag_amended_witness :
    (proc_audio ⟨true, true, true, true⟩ true
        (.readFail :: [])).loopExit = some .streamError
    ∧ (proc_audio ⟨true, true, true, true⟩ true
        (.putFail :: [])).loopExit = some .streamError
    ∧ (proc_audio ⟨true, true, true, true⟩ false []).flagWrites = [] :=
  C2_audio_flag_amended ⟨true, true, true, true⟩ false [] [] rfl

/-- C10: the audio worker returns 1 exactly when opening or binding one
of its streams fails during startup; if its loop terminates because a
stream read or write failed, it still returns 0, the same value as a
clean RunState-driven exit — the caller cannot tell an audio
steady-state failure from a normal shutdown. -/
theorem C10_audio_rc (st : AudioStartOutcome) (running : Bool)
    (events : List AudioIterEvent) :
    ((proc_audio st running events).rc = 1
      ↔ (st.openRecOk = false ∨ st.openOutOk = false
          ∨ st.bindRecOk = false ∨ st.bindOutOk = false))
    ∧ ((proc_audio st running events).loopExit = some .streamError
        → (proc_audio st running events).rc = 0)
    ∧ ((proc_audio st running events).loopExit = some .guardFalse
        → (proc_audio st running events).rc = 0) := by
  obtain ⟨a, b, c, d⟩ := st
  cases a <;> cases b <;> cases c <;> cases d <;>
    simp [proc_audio]

/-- Witness for `C10_audio_rc` (its conjuncts contain implications;
instantiate at a failing read so the stream-error implication fires). -/
theorem C10_audio_rc_witness :
    ((proc_audio ⟨true, true, true, true⟩ true [.readFail]).rc = 1
      ↔ ((true : Bool) = false ∨ (true : Bool) = false
          ∨ (true : Bool) = false ∨ (true : Bool) = false))
    ∧ ((proc_audio ⟨true, true, true, true⟩ true [.readFail]).loopExit
          = some .streamError
        → (proc_audio ⟨true, true, true, true⟩ true [.readFail]).rc = 0)
    ∧ ((proc_audio ⟨true, true, true, true⟩ true [.readFail]).loopExit
          = some .guardFalse
        → (proc_audio ⟨true, true, true, true⟩ true [.readFail]).rc = 0) :=
  C10_audio_rc ⟨true, true, true, true⟩ true [.readFail]

/-! ### `proc_video` startup and `main` exit code (src/main.c:287-386,
461-581) -/

/-- Oracle outcomes of the `proc_video` startup phase, in program order
(src/main.c:297-386): `VIDIOC_S_FMT`, `VIDIOC_REQBUFS` granting at least
2 slots, `calloc`, the per-slot `VIDIOC_QUERYBUF`+`mmap` loop, the
initial per-slot `VIDIOC_QBUF` loop, `VIDIOC_STREAMON`,
`SDL_CreateWindow`, `SDL_CreateRenderer`, `SDL_CreateTexture`, and the
`malloc` of the rgb FrameBuffer. -/
structure VideoStartOutcome where
  sFmtOk : Bool
  reqBufsOk : Bool
  callocOk : Bool
  queryMmapOk : Bool
  qbufOk : Bool
  streamOnOk : Bool
  windowOk : Bool
  rendererOk : Bool
  textureOk : Bool
  mallocRgbOk : Bool
deriving DecidableEq

/-- Return code of `proc_video`: each startup failure does `return 1`
immediately (src/main.c:297-386); once startup succeeds, the streaming
loop runs and the function returns 0 (src/main.c:451) no matter how the
loop exited. -/
def proc_video_rc (v : VideoStartOutcome) : Nat :=
  if !v.sFmtOk then 1
  else if !v.reqBufsOk then 1
  else if !v.callocOk then 1
  else if !v.queryMmapOk then 1
  else if !v.qbufOk then 1
  else if !v.streamOnOk then 1
  else if !v.windowOk then 1
  else if !v.rendererOk then 1
  else if !v.textureOk then 1
  else if !v.mallocRgbOk then 1
  else 0

/-- Oracle for one whole run of `main` (src/main.c:461-581). -/
structure MainEnv where
  openVideoOk : Bool
  sdlInitOk : Bool
  threadVideoOk : Bool
  threadAudioOk : Bool
  video : VideoStartOutcome
  audio : AudioStartOutcome
  audioRunning : Bool
  audioEvents : List AudioIterEvent
deriving DecidableEq

/-- The process exit code of `main` (src/main.c:461-581): `open` failure,
`SDL_Init` failure and the two `pthread_create` failures return 1; on
every other run `main` joins both workers with a NULL result pointer
(src/main.c:556-558) — the worker return codes are computed but
discarded — runs cleanup and returns 0 (src/main.c:580). -/
def main_exit_code (env : MainEnv) : Nat :=
  if !env.openVideoOk then 1
  else if !env.sdlInitOk then 1
  else if !env.threadVideoOk then 1
  else if !env.threadAudioOk then 1
  else
    let _vrc := proc_video_rc env.video
    let _arc := (proc_audio env.audio env.audioRunning env.audioEvents).rc
    0

/-- C1 as stated is false: a format-negotiation rejection
(`VIDIOC_S_FMT` failing) is an unrecoverable startup failure — the video
worker returns 1 — yet the process exit code is 0, because `main` joins
the worker threads with NULL result pointers and discards their return
values. -/
theorem C1_exit_code_counterexample :
    proc_video_rc
        ⟨false, true, true, true, true, true, true, true, true, true⟩ = 1
    ∧ main_exit_code
        ⟨true, true, true, true,
         ⟨false, true, true, true, true, true, true, true, true, true⟩,
         ⟨true, true, true, true⟩, true, []⟩ = 0
    ∧ (0 : Nat) ≠ 1 := by decide

/-- C1 amended: the process exit code is 0 on clean shutdown and 1
exactly when a failure is detected in `main` itself — video device open
failure, `SDL_Init` failure, or thread creation failure.  Startup
failures inside the workers (format negotiation, buffer grant, mapping,
window/renderer/texture creation, FrameBuffer allocation, audio stream
open/bind) make the affected worker return 1, but that value is
discarded at join and the process still exits 0. -/
theorem C1_exit_code_amended (env : MainEnv) :
    main_exit_code env
      = if env.openVideoOk && env.sdlInitOk && env.threadVideoOk
          && env.threadAudioOk then 0 else 1 := by
  obtain ⟨a, b, c, d, v, au, r, ev⟩ := env
  cases a <;> cases b <;> cases c <;> cases d <;> simp [main_exit_code]

/-! ### Recording-device selection: `pick_recording_device`
(src/main.c:108-152)

The enumeration is modelled as a list of devices with their SDL ids and
names (the claim quantifies over enumerated device lists; a NULL return
from the enumeration call is outside it, and SDL device names are
modelled as always present). -/

/-- C `isspace` in the default locale, as `strtol` skips it. -/
def cIsSpace (c : Char) : Bool :=
  c = ' ' || c = '\t' || c = '\n' || c = Char.ofNat 11
    || c = Char.ofNat 12 || c = '\r'

/-- Value of a run of decimal digits. -/
def digitsVal (ds : List Char) : Nat :=
  ds.foldl (fun acc c => 10 * acc + (c.toNat - 48)) 0

/-- `strtol(s, &end, 10)`: skip whitespace, optional sign, then the
longest digit run; returns the value and the suffix `end` points at.
If no digit was found the value is 0 and `end` is reset to the start of
the string.  (`long` overflow clamping is not modelled; an overflowing
selector is out of every device list's bounds either way.) -/
def strtol10 (s : List Char) : Int × List Char :=
  let afterWs := s.dropWhile cIsSpace
  let signAndRest : Int × List Char :=
    match afterWs with
    | '+' :: rest => (1, rest)
    | '-' :: rest => (-1, rest)
    | _ => (1, afterWs)
  let digits := signAndRest.2.takeWhile Char.isDigit
  let rest := signAndRest.2.dropWhile Char.isDigit
  if digits.isEmpty then (0, s)
  else (signAndRest.1 * (digitsVal digits : Int), rest)

/-- Does `needle` match at the head of `hay`? -/
def matchesAt : List Char → List Char → Bool
  | [], _ => true
  | _ :: _, [] => false
  | n :: ns, c :: cs => n = c && matchesAt ns cs

/-- C `strstr(hay, needle) != NULL`: `needle` occurs contiguously in
`hay`; the empty needle matches every haystack. -/
def strstrFound (needle : List Char) : List Char → Bool
  | [] => matchesAt needle []
  | c :: cs => matchesAt needle (c :: cs) || strstrFound needle cs

/-- One enumerated recording device: SDL device id and name. -/
structure AudioDevice where
  id : Nat
  name : String
deriving DecidableEq

/-- Outcome of selection: the system default device
(`SDL_AUDIO_DEVICE_DEFAULT_RECORDING`) or a concrete enumerated id. -/
inductive DeviceChoice where
  | defaultDevice
  | device (id : Nat)
deriving DecidableEq

/-- Selection result plus whether an "unavailable/not found, using
default" diagnostic was printed to stderr. -/
structure PickResult where
  chosen : DeviceChoice
  diagnostic : Bool
deriving DecidableEq

/-- `pick_recording_device` (src/main.c:108-152), branch by branch: an
empty selector skips resolution entirely (`selector[0] != '\0'` guard);
otherwise if `strtol` consumed the whole selector the number is used as
a bounds-checked index (out of bounds: default plus diagnostic);
otherwise the first device whose name contains the selector
(`strstr`) wins, and if none does, the default is chosen with a
diagnostic. -/
def pick_recording_device (selector : String) (devices : List AudioDevice) :
    PickResult :=
  if selector.data.isEmpty then ⟨.defaultDevice, false⟩
  else
    let pr := strtol10 selector.data
    if pr.2.isEmpty then
      if h : 0 ≤ pr.1 ∧ pr.1 < (devices.length : Int) then
        ⟨.device ((devices.get ⟨pr.1.toNat, by omega⟩).id), false⟩
      else ⟨.defaultDevice, true⟩
    else
      match devices.find? (fun d => strstrFound selector.data d.name.data) with
      | some d => ⟨.device d.id, false⟩
      | none => ⟨.defaultDevice, true⟩

/-- Resolution exactly as the claim words it (the spec side of the
refinement): if the selector parses entirely as a number (`strtol`
consumes the whole string having found at least one digit), that index
is used only when within bounds, otherwise the default with a
diagnostic; otherwise the first device whose name contains the selector
as a case-sensitive substring is chosen; if no name matches, the default
with a diagnostic. -/
def claim_resolution (selector : String) (devices : List AudioDevice) :
    PickResult :=
  let pr := strtol10 selector.data
  if pr.2.isEmpty && !selector.data.isEmpty then
    if h : 0 ≤ pr.1 ∧ pr.1 < (devices.length : Int) then
      ⟨.device ((devices.get ⟨pr.1.toNat, by omega⟩).id), false⟩
    else ⟨.defaultDevice, true⟩
  else
    match devices.find? (fun d => strstrFound selector.data d.name.data) with
    | some d => ⟨.device d.id, false⟩
    | none => ⟨.defaultDevice, true⟩

/-- C9 as stated is false for the empty selector: `""` does not parse as
a number (no digits), and as a substring it trivially occurs in every
device name, so the claim's resolution picks the first enumerated
device; the code's guard `selector[0] != '\0'` instead short-circuits to
the default device without a diagnostic. -/
theorem C9_selector_counterexample :
    pick_recording_device "" [⟨7, "mic"⟩] = ⟨.defaultDevice, false⟩
    ∧ claim_resolution "" [⟨7, "mic"⟩] = ⟨.device 7, false⟩
    ∧ strstrFound "".data "mic".data = true
    ∧ (⟨.defaultDevice, false⟩ : PickResult) ≠ ⟨.device 7, false⟩ := by
  decide

/-- C9 amended: for every non-empty selector string the code resolves
exactly as the claim states (numeric index bounds-checked with
diagnostic fallback, else first case-sensitive substring match, else
default with diagnostic); an empty selector is special-cased to the
default device with no diagnostic. -/
theorem C9_selector_amended (selector : String) (devices : List AudioDevice) :
    pick_recording_device selector devices
      = if selector.data.isEmpty then ⟨.defaultDevice, false⟩
        else claim_resolution selector devices := by
  by_cases he : selector.data.isEmpty
  · simp [pick_recording_device, he]
  · simp only [Bool.not_eq_true] at he
    simp [pick_recording_device, claim_resolution, he]

/-- Witness for `C6_fit_rect` at the claim's own concrete example. -/
theorem C6_fit_rect_witness :
    (integer_fit_rect 640 480 1000 1000).w
        = ((640 * max 1 (Nat.floor (min ((1000 : Rat) / 640)
            ((1000 : Rat) / 480))) : Nat) : Rat)
    ∧ (integer_fit_rect 640 480 1000 1000).h
        = ((480 * max 1 (Nat.floor (min ((1000 : Rat) / 640)
            ((1000 : Rat) / 480))) : Nat) : Rat)
    ∧ (integer_fit_rect 640 480 1000 1000).x
        = ((1000 : Rat) - (integer_fit_rect 640 480 1000 1000).w) / 2
    ∧ (integer_fit_rect 640 480 1000 1000).y
        = ((1000 : Rat) - (integer_fit_rect 640 480 1000 1000).h) / 2
    ∧ integer_fit_rect 640 480 1280 960 = ⟨0, 0, 1280, 960⟩
    ∧ integer_fit_rect 640 480 1000 1000 = ⟨180, 260, 640, 480⟩ :=
  C6_fit_rect 640 480 1000 1000 (by decide) (by decide) (by decide) (by decide)
